import Mathlib

/-!
Verification of the telemetry relay pipeline of this repository against its
specification.  The sources are two Python modules:

* `src/telemetry_server.py` — an HTTP server (`SecureRequestHandler`) whose
  `do_GET` authenticates a caller against a fixed token and serves a dashboard
  page, a `/stream` JSON endpoint that reads a log file from disk, and a 404
  fallback.
* `src/model_train.py` — a supervisor that spawns an external worker process,
  forwards the worker's output lines as UDP datagrams
  (`udp_stream_handler`), and restarts the worker after a fixed delay
  (`launch_ghost_miner` and the `__main__` restart loop).

Each Python function the claims depend on is embedded below as an executable
Lean definition over explicit request / file-system / stream states.
-/

/-! ## Telemetry server: configuration (src/telemetry_server.py:38-49) -/

/-- `ACCESS_TOKEN = "GradientAlpha"` (src/telemetry_server.py:42). -/
def ACCESS_TOKEN : String := "GradientAlpha"

/-- Stand-in for the `DASHBOARD_TEMPLATE` string
(src/telemetry_server.py:55-191).  The template is a fixed ~140-line HTML
page returned verbatim by the `/` route; none of the claims inspects its
content, so only the fact that it is a fixed string matters here. -/
def DASHBOARD_TEMPLATE : String := "<html>Gradient AI | Tensor Training Metrics</html>"

/-! ## Telemetry server: request and response model -/

/-- One inbound HTTP GET request as `do_GET` observes it:
`path` is `urlparse(self.path).path`; `queryToken` is the first value of the
`token` query parameter if present (`parse_qs(...)["token"][0]`), `queryPos`
likewise for `pos`; `authHeader` is `self.headers.get("Authorization")`.
`parse_qs` drops blank values, which the `Option` encoding reflects. -/
structure Request where
  path : String
  queryToken : Option String
  queryPos : Option String
  authHeader : Option String

/-- The data `_send_response` writes: status code, `Content-type` header and
the body string (src/telemetry_server.py:198-203). -/
structure Response where
  status : Nat
  contentType : String
  body : String

/-- State of the on-disk log file `LOG_FILE_PATH = "./miner_live.log"`
(src/telemetry_server.py:46): the file may be absent (`os.path.exists` is
false), present with readable text `content`, or present but failing to
open/read with an exception whose message is `msg`. -/
inductive FileState where
  | absent : FileState
  | present : String → FileState
  | readError : String → FileState

/-- `SecureRequestHandler._check_auth` (src/telemetry_server.py:205-216):
accept when the first `token` query value equals `ACCESS_TOKEN`, or when the
`Authorization` header is truthy (non-empty) and equals
`"Bearer " + ACCESS_TOKEN`. -/
def checkAuth (queryToken authHeader : Option String) : Bool :=
  (match queryToken with
   | some t => t == ACCESS_TOKEN
   | none => false)
  ||
  (match authHeader with
   | some h => !(h == "") && (h == "Bearer " ++ ACCESS_TOKEN)
   | none => false)

/-- The 403 denial `do_GET` sends when `_check_auth` fails
(src/telemetry_server.py:221). -/
def denialResponse : Response :=
  ⟨403, "text/plain", "Gradient AI Security: ACCESS DENIED. Invalid Token."⟩

/-! ## Telemetry server: helpers for the `/stream` route -/

/-- Digit-string to number: `some` of the value when `cs` is a non-empty
all-digit list, else `none`. -/
def parseDigits (cs : List Char) : Option Nat :=
  if cs.isEmpty then none
  else if cs.all Char.isDigit then
    some (cs.foldl (fun a c => a * 10 + (c.toNat - 48)) 0)
  else none

/-- Surrounding-whitespace strip on a character list (the `int()` conversion
ignores leading and trailing whitespace). -/
def stripChars (cs : List Char) : List Char :=
  ((cs.dropWhile Char.isWhitespace).reverse.dropWhile Char.isWhitespace).reverse

/-- Python `int(s)` on a string (the conversion at
src/telemetry_server.py:234): strip surrounding whitespace, allow one
optional `+`/`-` sign followed by decimal digits; anything else raises
`ValueError`, modelled as `.error`.  (Python additionally allows underscore
digit grouping and non-ASCII digits; no claim depends on those inputs.)  The
error message omits Python's quoted repr of `s`. -/
def pyInt (s : String) : Except String Int :=
  match stripChars s.data with
  | [] => .error ("invalid literal for int() with base 10: " ++ s)
  | c :: rest =>
    if c = '-' then
      match parseDigits rest with
      | some n => .ok (-(Int.ofNat n))
      | none => .error ("invalid literal for int() with base 10: " ++ s)
    else if c = '+' then
      match parseDigits rest with
      | some n => .ok (Int.ofNat n)
      | none => .error ("invalid literal for int() with base 10: " ++ s)
    else
      match parseDigits (c :: rest) with
      | some n => .ok (Int.ofNat n)
      | none => .error ("invalid literal for int() with base 10: " ++ s)

/-- JSON string escaping of one character, as `json.dumps` performs on the
`logs` value. -/
def jsonEscapeChar (c : Char) (acc : List Char) : List Char :=
  if c = '\"' then '\\' :: '\"' :: acc
  else if c = '\\' then '\\' :: '\\' :: acc
  else if c = '\n' then '\\' :: 'n' :: acc
  else if c = '\r' then '\\' :: 'r' :: acc
  else if c = '\t' then '\\' :: 't' :: acc
  else c :: acc

/-- JSON string escaping, as `json.dumps` applies to the `logs` value. -/
def jsonEscape (s : String) : String :=
  String.mk (s.data.foldr jsonEscapeChar [])

/-- The body produced by
`json.dumps({"logs": new_logs, "position": current_pos})`
(src/telemetry_server.py:248-251), with `json.dumps`'s default separators. -/
def jsonBody (logs : String) (position : Int) : String :=
  "\x7b\"logs\": \"" ++ jsonEscape logs ++ "\", \"position\": "
    ++ toString position ++ "\x7d"

/-- `f.seek(position)` followed by `new_logs = f.read()` and
`current_pos = f.tell()` on a readable file of text `content`
(src/telemetry_server.py:242-244): a negative position raises `ValueError`
(modelled as `.error`); otherwise the remaining text from offset `position`
is read and the final offset is `max position (length content)` (seeking
past the end reads nothing and leaves the offset where it was set).
Offsets are modelled as character counts. -/
def seekRead (content : String) (position : Int) : Except String (String × Int) :=
  if position < 0 then .error "negative seek position"
  else .ok (String.mk (content.data.drop position.toNat),
            max position (Int.ofNat content.data.length))

/-- `SecureRequestHandler.do_GET` (src/telemetry_server.py:218-258) as a
function of the request and the log-file state.  The result is `.error e`
when the handler raises an uncaught exception `e` (so no response at all is
written), and otherwise `.ok (response, touchedDisk)` where `touchedDisk`
records whether the handler accessed the on-disk log file
(`os.path.exists` / `open` / `read` on `LOG_FILE_PATH`).  Note the
`int(...)` conversion of `pos` sits before the `try` block, so its
`ValueError` escapes, while exceptions from opening or reading the file are
caught and turned into a `[SYSTEM ERROR]` line inside the 200 response. -/
def doGet (req : Request) (fs : FileState) : Except String (Response × Bool) :=
  if !(checkAuth req.queryToken req.authHeader) then
    .ok (denialResponse, false)
  else if req.path == "/" then
    .ok (⟨200, "text/html", DASHBOARD_TEMPLATE⟩, false)
  else if req.path == "/stream" then
    match (match req.queryPos with
           | none => Except.ok (0 : Int)
           | some p => pyInt p) with
    | .error e => .error e
    | .ok position =>
      let out : String × Int :=
        match fs with
        | .absent => ("", position)
        | .present content =>
          match seekRead content position with
          | .ok r => r
          | .error e => ("[SYSTEM ERROR] Could not read log stream: " ++ e, position)
        | .readError e => ("[SYSTEM ERROR] Could not read log stream: " ++ e, position)
      .ok (⟨200, "application/json", jsonBody out.1 out.2⟩, true)
  else
    .ok (⟨404, "text/plain", "Endpoint Not Found"⟩, false)

/-! ## Telemetry server: method dispatch

`SecureRequestHandler` extends `http.server.SimpleHTTPRequestHandler`
(src/telemetry_server.py:197) and overrides only `do_GET` (and the
`log_message` silencer).  The base `BaseHTTPRequestHandler` dispatches each
request to the method named `do_<COMMAND>`: a request whose method has no
such handler is answered with a 501 error, and a `HEAD` request reaches the
inherited `SimpleHTTPRequestHandler.do_HEAD`, which serves the response head
for the file at the translated request path out of the working directory —
without any call to `_check_auth`. -/

/-- An HTTP request method: `GET`, `HEAD`, or any other verb. -/
inductive Method where
  | get : Method
  | head : Method
  | other : String → Method

/-- Modelled from the Python standard library, as inherited through
`class SecureRequestHandler(http.server.SimpleHTTPRequestHandler)`
(src/telemetry_server.py:197): `SimpleHTTPRequestHandler.do_HEAD` translates
the request path to a local file and sends only a response head — `200` when
the path resolves to a readable file or directory index, `404` otherwise.
It performs no authentication.  `pathServable` abstracts whether the path
resolves. -/
def doHeadInherited (pathServable : Bool) : Response :=
  if pathServable then ⟨200, "text/html", ""⟩ else ⟨404, "text/plain", ""⟩

/-- The base class's per-request dispatch specialised to
`SecureRequestHandler`: `GET` goes to the overridden `do_GET`; `HEAD` goes
to the inherited unauthenticated file-serving `do_HEAD`; any other method
gets the base class's 501 error response.  The `Bool` in the result records
whether the handler touched the local filesystem. -/
def dispatch (m : Method) (req : Request) (fs : FileState)
    (pathServable : Bool) : Except String (Response × Bool) :=
  match m with
  | .get => doGet req fs
  | .head => .ok (doHeadInherited pathServable, true)
  | .other _ => .ok (⟨501, "text/html", "Unsupported method"⟩, false)

/-! ## Pipe Forwarder: `udp_stream_handler` (src/model_train.py:182-205)

The forwarder opens a UDP socket to the fixed target
`("127.0.0.1", UDP_TARGET_PORT)`, first sends one banner datagram
`"--- [GHOST STREAM ATTACHED] <now> ---\n"`, then reads the worker's
stdout line-by-line (`iter(process.stdout.readline, b"")`) and sends each
line's raw bytes as one datagram.  Each per-line `sendto` sits in its own
`try/except Exception: pass`, and the whole body sits in an outer
`try/except Exception: pass`, so nothing ever propagates to the caller.

The embedding makes the effects explicit: the stream is the list of
`readline` results (a line is a byte list; reading stops at the first empty
result, the EOF sentinel), and `fail i` says whether the `i`-th `sendto`
raises (e.g. `ECONNREFUSED` with no listener). -/

/-- `UDP_TARGET_PORT = 65000` (src/model_train.py:51). -/
def UDP_TARGET_PORT : Nat := 65000

/-- Bytes of an ASCII string, for datagram payloads. -/
def strBytes (s : String) : List Nat := s.data.map Char.toNat

/-- The start-signal datagram payload
(src/model_train.py:192), with `ts` standing for `datetime.now()`. -/
def bannerBytes (ts : String) : List Nat :=
  strBytes ("--- [GHOST STREAM ATTACHED] " ++ ts ++ " ---\n")

/-- One `sock.sendto(payload, target)` call: raises (`.error`) exactly when
the environment `fail` says the `i`-th send fails, otherwise delivers the
payload unchanged — the datagram carries exactly the bytes passed in,
with no framing. -/
def sendDatagram (fail : Nat → Bool) (i : Nat) (payload : List Nat) :
    Except String (List Nat) :=
  if fail i then .error "[Errno 111] Connection refused" else .ok payload

/-- The reading loop of `udp_stream_handler` (src/model_train.py:195-203):
for each line until the EOF sentinel, attempt one send; a raised send is
caught by the per-line `except Exception: pass` and the loop continues.
Returns, per line read, the payload attempted and whether it was delivered.
`i` numbers the send attempts (the banner is attempt 0). -/
def forwardLines (fail : Nat → Bool) : Nat → List (List Nat) → List (List Nat × Bool)
  | _, [] => []
  | i, line :: rest =>
    if line.isEmpty then []
    else
      match sendDatagram fail i line with
      | .ok _ => (line, true) :: forwardLines fail (i + 1) rest
      | .error _ => (line, false) :: forwardLines fail (i + 1) rest

/-- `udp_stream_handler` (src/model_train.py:182-205) over a stream of
`readline` results: send the banner, then run the reading loop.  The outer
`try/except Exception: pass` means the function always returns normally
(`.ok`); when the banner send itself raises, the outer handler catches it
and the function ends before forwarding anything. -/
def udpStreamHandler (fail : Nat → Bool) (ts : String)
    (stream : List (List Nat)) : Except String (List (List Nat × Bool)) :=
  match sendDatagram fail 0 (bannerBytes ts) with
  | .error _ => .ok []
  | .ok banner => .ok ((banner, true) :: forwardLines fail 1 stream)

/-- The payloads of the datagrams the forwarder attempts to send to the
Collector's address, in order. -/
def datagramPayloads (fail : Nat → Bool) (ts : String)
    (stream : List (List Nat)) : List (List Nat) :=
  match udpStreamHandler fail ts stream with
  | .ok outs => outs.map Prod.fst
  | .error _ => []

/-! ## Process Supervisor (src/model_train.py:211-328) -/

/-- The fixed restart delay: `time.sleep(5)` at the bottom of the
`__main__` restart loop (src/model_train.py:327), in seconds. -/
def RESTART_DELAY : Nat := 5

/-- The liveness-check cadence of `run_fake_training_loop`: the loop polls
`miner_proc.poll()` and then sleeps 5 seconds (src/model_train.py:274,280). -/
def POLL_INTERVAL : Nat := 5

/-- What one iteration of the `__main__` restart loop encounters:
`launch_ghost_miner`'s `subprocess.Popen` raises (`spawnFail`), or the
worker runs and the iteration ends with the worker's death
(`workerRuns false`) or with an operator `KeyboardInterrupt`
(`workerRuns true`). -/
inductive SpawnOutcome where
  | spawnFail : String → SpawnOutcome
  | workerRuns : Bool → SpawnOutcome

/-- Result of one iteration of the `__main__` restart loop
(src/model_train.py:312-328): whether the whole process exits, the sleep
before the next spawn attempt, and the log lines emitted. -/
structure IterResult where
  terminates : Bool
  delay : Nat
  logs : List String

/-- One iteration of the `while True:` restart loop
(src/model_train.py:312-328).  `launch_ghost_miner` catches any `Popen`
exception, logs `FATAL KERNEL ERROR: <e>` at critical level and returns
`None` (src/model_train.py:245-247); the loop then falls through to
`time.sleep(5)` and retries.  A worker death breaks out of
`run_fake_training_loop` (src/model_train.py:274-276) into the same
`time.sleep(5)`.  Only `KeyboardInterrupt` terminates the process
(`sys.exit(0)`, src/model_train.py:322-325). -/
def mainLoopIter : SpawnOutcome → IterResult
  | .spawnFail msg =>
    ⟨false, RESTART_DELAY,
      ["FATAL KERNEL ERROR: " ++ msg, "Reinitializing System..."]⟩
  | .workerRuns false =>
    ⟨false, RESTART_DELAY,
      ["Compute Kernel Attached Successfully.",
       "Distributed Worker Process Died Unexpectedly! Restarting...",
       "Reinitializing System..."]⟩
  | .workerRuns true =>
    ⟨true, 0,
      ["Compute Kernel Attached Successfully.",
       "Manual Interrupt. Stopping Cluster..."]⟩

/-- The restart loop run against a finite prefix of outcomes: iterations
continue until one terminates the process. -/
def superviseTrace : List SpawnOutcome → List IterResult
  | [] => []
  | o :: os =>
    let r := mainLoopIter o
    if r.terminates then [r] else r :: superviseTrace os

/-- Time at which the supervisor observes a worker death that happened at
time `t` (seconds, measured from the start of `run_fake_training_loop`):
the loop polls `miner_proc.poll()` at times `0, 5, 10, ...` (it checks,
then sleeps `POLL_INTERVAL`; src/model_train.py:272-280), so the death is
detected at the first poll at or after `t`. -/
def detectTime (t : Nat) : Nat :=
  ((t + POLL_INTERVAL - 1) / POLL_INTERVAL) * POLL_INTERVAL

/-- Time at which the next spawn attempt begins after a worker death at
time `t`: detection at the next poll, then the `time.sleep(5)` of the
restart loop (src/model_train.py:327). -/
def nextSpawnTime (t : Nat) : Nat := detectTime t + RESTART_DELAY

/-! ## Bounded Log Buffer

Modelled from the spec: the Bounded Log Buffer and the Telemetry Collector
(spec §2, §3, §4.1) have no implementation under `src/` — the Pipe
Forwarder sends datagrams to `127.0.0.1:65000`, but no source file listens
there or maintains an in-memory buffer (the HTTP server reads a disk file
instead).  The buffer is therefore modelled faithfully from the spec's
words: an insertion-ordered sequence of lines with fixed capacity `N`
(default 200); `append` unconditionally succeeds, evicting the oldest entry
when the insert would exceed `N`; `snapshot` returns the held lines in
FIFO-to-newest order. -/
structure LogBuffer where
  capacity : Nat
  lines : List String

/-- The spec's default capacity `N = 200` (spec §3). -/
def DEFAULT_CAPACITY : Nat := 200

/-- The last `n` elements of a list (the survivors of FIFO eviction). -/
def lastN (n : Nat) (l : List String) : List String :=
  l.drop (l.length - n)

/-- Modelled from the spec: `append(line)` — unconditionally succeeds; if
the buffer is at capacity, evicts the single oldest entry before inserting
the new one, preserving insertion order of the rest (spec §4.1). -/
def LogBuffer.append (b : LogBuffer) (line : String) : LogBuffer :=
  ⟨b.capacity, lastN b.capacity (b.lines ++ [line])⟩

/-- Modelled from the spec: `snapshot()` — a copy of all currently held
lines in FIFO-to-newest order (spec §4.1). -/
def LogBuffer.snapshot (b : LogBuffer) : List String := b.lines

/-- A fresh buffer of capacity `n` (spec §3: created empty at start). -/
def LogBuffer.empty (n : Nat) : LogBuffer := ⟨n, []⟩

/-- A whole sequence of appends, oldest first. -/
def appendAll (b : LogBuffer) (xs : List String) : LogBuffer :=
  xs.foldl LogBuffer.append b

/-! ## Concrete environments used in counterexamples and witnesses -/

/-- A transport environment in which no send fails. -/
def noFail : Nat → Bool := fun _ => false

/-- A transport environment in which every odd-numbered send fails. -/
def failOdd : Nat → Bool := fun i => i % 2 == 1

/-- A 4097-byte worker output line (one byte beyond the spec's datagram
bound). -/
def bigLine : List Nat := 88 :: List.replicate 4096 88

/-! ## Helper lemmas -/

/-- Dropping a prefix that FIFO eviction would discard anyway does not
change the last `n` elements. -/
theorem lastN_drop (n k : Nat) (l : List String) (h : k ≤ l.length - n) :
    lastN n (l.drop k) = lastN n l := by
  unfold lastN
  rw [List.length_drop, List.drop_drop]
  congr 1
  omega

/-- FIFO eviction is insensitive to evictions already performed: keeping the
last `n` of `as` before appending `bs` gives the same last `n` as appending
directly. -/
theorem lastN_append_lastN (n : Nat) (as bs : List String) :
    lastN n (lastN n as ++ bs) = lastN n (as ++ bs) := by
  have hd : lastN n as ++ bs = (as ++ bs).drop (as.length - n) := by
    rw [List.drop_append_of_le_length (by omega)]
    rfl
  rw [hd, lastN_drop]
  rw [List.length_append]
  omega

/-- Running a sequence of appends over a buffer holding the last `n` of
`ls` leaves the last `n` of the full history. -/
theorem appendAll_lines (n : Nat) (xs : List String) :
    ∀ ls : List String,
      (appendAll ⟨n, lastN n ls⟩ xs).lines = lastN n (ls ++ xs) := by
  induction xs with
  | nil => intro ls; simp [appendAll]
  | cons x xs ih =>
    intro ls
    show (appendAll (LogBuffer.append ⟨n, lastN n ls⟩ x) xs).lines = _
    rw [show LogBuffer.append ⟨n, lastN n ls⟩ x = ⟨n, lastN n (ls ++ [x])⟩ by
          simp [LogBuffer.append, lastN_append_lastN]]
    rw [ih (ls ++ [x])]
    simp

/-- Unequal strings stay unequal under a common `"Bearer "` prefix. -/
theorem bearer_ne {s : String} (h : s ≠ ACCESS_TOKEN) :
    ("Bearer " ++ s) ≠ ("Bearer " ++ ACCESS_TOKEN) := by
  intro heq
  apply h
  apply String.ext
  have h2 := congrArg String.data heq
  rw [String.data_append, String.data_append] at h2
  exact List.append_cancel_left h2

/-! ## Claim theorems -/

/-- C2: for every buffer of capacity N and every sequence of N+k appends,
the buffer afterwards holds exactly the last N inserted lines in their
original relative order; `len(buffer) ≤ N` holds after every sequence of
operations; with capacity 3, appending "a","b","c","d" yields the snapshot
["b","c","d"]. -/
theorem C2_bounded_buffer (N k : Nat) (xs ys : List String)
    (h : xs.length = N + k) :
    (appendAll (LogBuffer.empty N) xs).snapshot = xs.drop k ∧
    (appendAll (LogBuffer.empty N) ys).lines.length ≤ N ∧
    (appendAll (LogBuffer.empty 3) ["a", "b", "c", "d"]).snapshot
      = ["b", "c", "d"] := by
  have key : ∀ zs : List String,
      (appendAll (LogBuffer.empty N) zs).lines = lastN N zs := by
    intro zs
    have h0 : LogBuffer.empty N = ⟨N, lastN N []⟩ := by
      unfold LogBuffer.empty
      congr 1
      simp [lastN]
    rw [h0, appendAll_lines N zs []]
    simp
  refine ⟨?_, ?_, rfl⟩
  · show (appendAll (LogBuffer.empty N) xs).lines = xs.drop k
    rw [key xs]
    unfold lastN
    congr 1
    omega
  · rw [key ys]
    unfold lastN
    rw [List.length_drop]
    omega

/-- C2 witness: capacity 3, four appends. -/
theorem C2_bounded_buffer_witness :
    (["a", "b", "c", "d"] : List String).length = 3 + 1 ∧
    (appendAll (LogBuffer.empty 3) ["a", "b", "c", "d"]).snapshot
      = ["a", "b", "c", "d"].drop 1 :=
  ⟨by decide, (C2_bounded_buffer 3 1 ["a", "b", "c", "d"] [] (by decide)).1⟩

/-- C3: any request presenting a string s different from the configured
token — as the `token` query parameter, as a `Bearer` header, or as both —
is denied with the 403 response; presenting exactly the configured token
through either channel passes the auth gate. -/
theorem C3_token_gate (s : String) (fs : FileState) (path : String)
    (p : Option String) (h : s ≠ ACCESS_TOKEN) :
    doGet ⟨path, some s, p, none⟩ fs = .ok (denialResponse, false) ∧
    doGet ⟨path, none, p, some ("Bearer " ++ s)⟩ fs
      = .ok (denialResponse, false) ∧
    doGet ⟨path, some s, p, some ("Bearer " ++ s)⟩ fs
      = .ok (denialResponse, false) ∧
    checkAuth (some ACCESS_TOKEN) none = true ∧
    checkAuth none (some ("Bearer " ++ ACCESS_TOKEN)) = true ∧
    denialResponse.status = 403 := by
  have hq : (s == ACCESS_TOKEN) = false := beq_eq_false_iff_ne.mpr h
  have hb : (("Bearer " ++ s) == ("Bearer " ++ ACCESS_TOKEN)) = false :=
    beq_eq_false_iff_ne.mpr (bearer_ne h)
  have h1 : checkAuth (some s) none = false := by
    simp [checkAuth, hq]
  have h2 : checkAuth none (some ("Bearer " ++ s)) = false := by
    simp [checkAuth, hb]
  have h3 : checkAuth (some s) (some ("Bearer " ++ s)) = false := by
    simp [checkAuth, hq, hb]
  exact ⟨by simp [doGet, h1], by simp [doGet, h2], by simp [doGet, h3],
    rfl, rfl, rfl⟩

/-- C3 witness: the wrong token "wrong" is denied on the dashboard path;
the exact token is accepted via the header channel. -/
theorem C3_token_gate_witness :
    ("wrong" : String) ≠ ACCESS_TOKEN ∧
    doGet ⟨"/", some "wrong", none, none⟩ .absent
      = .ok (denialResponse, false) ∧
    checkAuth none (some ("Bearer " ++ ACCESS_TOKEN)) = true :=
  ⟨by decide, (C3_token_gate "wrong" .absent "/" none (by decide)).1,
    (C3_token_gate "wrong" .absent "/" none (by decide)).2.2.2.2.1⟩

/-- C1 counterexample: an authenticated GET to `/stream` does read from
disk.  The second component `true` of the result records that the handler
accessed the on-disk log file (`os.path.exists` / `open` / `read`), and the
`logs` field of the body is the disk file's content (here `"line1\n"`) —
two different disk states yield two different bodies — not a
`LogBuffer.snapshot()` (no log buffer exists in `src/telemetry_server.py`;
the buffered-lines design exists only in the spec). -/
theorem C1_counterexample :
    doGet ⟨"/stream", some ACCESS_TOKEN, none, none⟩ (.present "line1\n")
      = .ok (⟨200, "application/json", jsonBody "line1\n" 6⟩, true) ∧
    doGet ⟨"/stream", some ACCESS_TOKEN, none, none⟩ .absent
      = .ok (⟨200, "application/json", jsonBody "" 0⟩, true) ∧
    jsonBody "line1\n" 6 ≠ jsonBody "" 0 := by
  refine ⟨rfl, rfl, ?_⟩
  decide

/-- C1 amended: every authenticated GET to `/stream` whose `pos` query
value is a valid non-negative integer `n` — and likewise every one with no
`pos` parameter (offset 0) — returns a 200 `application/json` response and
reads the on-disk log file while producing it; when the file is readable,
its content from the requested offset `n` becomes the `logs` field and the
resulting file offset (`max n (length of the file)`) the `position` field;
with no `pos` parameter the entire content and its length are returned. -/
theorem C1_stream_reads_disk (qt ah : Option String) (fs : FileState)
    (c p : String) (n : Int) (h : checkAuth qt ah = true)
    (hp : pyInt p = .ok n) (hn : 0 ≤ n) :
    (Except.map (fun r => (r.1.status, r.1.contentType, r.2))
        (doGet ⟨"/stream", qt, some p, ah⟩ fs)
      = .ok (200, "application/json", true)) ∧
    doGet ⟨"/stream", qt, some p, ah⟩ (.present c)
      = .ok (⟨200, "application/json",
          jsonBody (String.mk (c.data.drop n.toNat))
            (max n (Int.ofNat c.data.length))⟩, true) ∧
    (Except.map (fun r => (r.1.status, r.1.contentType, r.2))
        (doGet ⟨"/stream", qt, none, ah⟩ fs)
      = .ok (200, "application/json", true)) ∧
    doGet ⟨"/stream", qt, none, ah⟩ (.present c)
      = .ok (⟨200, "application/json",
          jsonBody c (Int.ofNat c.data.length)⟩, true) := by
  have hsr : seekRead c n
      = .ok (String.mk (c.data.drop n.toNat), max n (Int.ofNat c.data.length)) := by
    rw [seekRead, if_neg (not_lt.mpr hn)]
  refine ⟨?_, ?_, ?_, ?_⟩
  · simp only [doGet, h, Bool.not_true, Bool.false_eq_true, if_false, hp]
    rfl
  · simp only [doGet, h, Bool.not_true, Bool.false_eq_true, if_false, hp, hsr]
    rfl
  · simp only [doGet, h, Bool.not_true, Bool.false_eq_true, if_false]
    rfl
  · simp only [doGet, h, Bool.not_true, Bool.false_eq_true, if_false]
    have hm : max (0 : Int) (Int.ofNat c.data.length) = Int.ofNat c.data.length :=
      max_eq_right (Int.ofNat_nonneg _)
    simp [seekRead, hm]

/-- C1 witness: the amended claim at a concrete authenticated request with
the explicit valid offset `pos=2` on a five-character log file — the
response carries the file's content from offset 2 and the resulting
offset 5. -/
theorem C1_stream_reads_disk_witness :
    checkAuth (some ACCESS_TOKEN) none = true ∧
    pyInt "2" = .ok 2 ∧
    (0 : Int) ≤ 2 ∧
    doGet ⟨"/stream", some ACCESS_TOKEN, some "2", none⟩ (.present "hello")
      = .ok (⟨200, "application/json", jsonBody "llo" 5⟩, true) :=
  ⟨rfl, rfl, by decide,
    (C1_stream_reads_disk (some ACCESS_TOKEN) none .absent "hello" "2" 2
      rfl rfl (by decide)).2.1⟩

/-- C4 counterexample: a HEAD request carrying no credential at all
(`checkAuth none none = false`) is dispatched to the inherited
`SimpleHTTPRequestHandler.do_HEAD`, which serves the filesystem path and
answers 200 — not a 403 denial — so not every request is authenticated
before processing. -/
theorem C4_counterexample :
    checkAuth none none = false ∧
    dispatch .head ⟨"/", none, none, none⟩ .absent true
      = .ok (⟨200, "text/html", ""⟩, true) ∧
    (200 : Nat) ≠ 403 :=
  ⟨rfl, rfl, by decide⟩

/-- C4 amended: every GET request is authenticated before any other
processing — with a credential that does not equal the configured token,
`do_GET` answers the fixed 403 denial and performs no routing and no disk
access; methods without an overridden handler get the base class's 501
error, and HEAD requests reach the inherited unauthenticated file-serving
handler, which answers 200 or 404, never the 403 denial. -/
theorem C4_get_auth_first (req : Request) (fs : FileState) (pe : Bool)
    (s : String) (h : checkAuth req.queryToken req.authHeader = false) :
    dispatch .get req fs pe = .ok (denialResponse, false) ∧
    dispatch (.other s) req fs pe
      = .ok (⟨501, "text/html", "Unsupported method"⟩, false) ∧
    ((doHeadInherited pe).status = 200 ∨ (doHeadInherited pe).status = 404) := by
  refine ⟨?_, rfl, ?_⟩
  · show doGet req fs = _
    simp [doGet, h]
  · cases pe
    · exact Or.inr rfl
    · exact Or.inl rfl

/-- C4 witness: the amended claim at a concrete credential-free GET
request. -/
theorem C4_get_auth_first_witness :
    checkAuth none none = false ∧
    dispatch .get ⟨"/", none, none, none⟩ .absent false
      = .ok (denialResponse, false) :=
  ⟨rfl, (C4_get_auth_first ⟨"/", none, none, none⟩ .absent false "POST" rfl).1⟩

/-- C5 counterexample: when opening or reading the log file raises, the
`/stream` route returns a 200 response whose body embeds the internal
exception text (here a raised "Permission denied"), so internal error
detail does reach the caller. -/
theorem C5_counterexample :
    doGet ⟨"/stream", some ACCESS_TOKEN, none, none⟩
        (.readError "Permission denied")
      = .ok (⟨200, "application/json",
          "\x7b\"logs\": \"[SYSTEM ERROR] Could not read log stream: Permission denied\", \"position\": 0\x7d"⟩,
        true) ∧
    (∃ pre suf : String,
      "\x7b\"logs\": \"[SYSTEM ERROR] Could not read log stream: Permission denied\", \"position\": 0\x7d"
        = pre ++ "Permission denied" ++ suf) :=
  ⟨rfl,
    ⟨"\x7b\"logs\": \"[SYSTEM ERROR] Could not read log stream: ",
      "\", \"position\": 0\x7d", rfl⟩⟩

/-- C5 amended: denied requests get the fixed plain-text 403 body and
unknown paths the fixed plain-text 404 body — no stack traces or internal
detail — but a log-file read error produces a 200 JSON response whose
`logs` field embeds the internal exception message. -/
theorem C5_error_responses (qt ah : Option String) (path e : String)
    (fs : FileState) :
    (checkAuth qt ah = false →
      doGet ⟨path, qt, none, ah⟩ fs = .ok (denialResponse, false)) ∧
    (checkAuth qt ah = true → path ≠ "/" → path ≠ "/stream" →
      doGet ⟨path, qt, none, ah⟩ fs
        = .ok (⟨404, "text/plain", "Endpoint Not Found"⟩, false)) ∧
    (checkAuth qt ah = true →
      doGet ⟨"/stream", qt, none, ah⟩ (.readError e)
        = .ok (⟨200, "application/json",
            jsonBody ("[SYSTEM ERROR] Could not read log stream: " ++ e) 0⟩,
          true)) := by
  refine ⟨?_, ?_, ?_⟩
  · intro h
    simp [doGet, h]
  · intro h hroot hstream
    have h1 : (path == "/") = false := beq_eq_false_iff_ne.mpr hroot
    have h2 : (path == "/stream") = false := beq_eq_false_iff_ne.mpr hstream
    simp [doGet, h, h1, h2]
  · intro h
    simp only [doGet, h, Bool.not_true, Bool.false_eq_true, if_false]
    rfl

/-- C5 witness: the amended claim at a concrete denied request and at a
concrete read failure. -/
theorem C5_error_responses_witness :
    checkAuth (some "bad") none = false ∧
    doGet ⟨"/x", some "bad", none, none⟩ .absent
      = .ok (denialResponse, false) ∧
    checkAuth (some ACCESS_TOKEN) none = true ∧
    doGet ⟨"/stream", some ACCESS_TOKEN, none, none⟩ (.readError "boom")
      = .ok (⟨200, "application/json",
          jsonBody ("[SYSTEM ERROR] Could not read log stream: " ++ "boom") 0⟩,
        true) :=
  ⟨by decide,
    (C5_error_responses (some "bad") none "/x" "m" .absent).1 (by decide),
    rfl,
    (C5_error_responses (some ACCESS_TOKEN) none "/stream" "boom" .absent).2.2 rfl⟩

/-- C10: for every authenticated GET to `/stream` whose `pos` query value
is not a decimal integer, the `int(...)` conversion sits outside the `try`
block, the handler raises, and no response (no 200, no 404, no JSON) is
produced. -/
theorem C10_pos_conversion_unguarded (qt ah : Option String) (fs : FileState)
    (p e : String) (hauth : checkAuth qt ah = true)
    (hp : pyInt p = .error e) :
    doGet ⟨"/stream", qt, some p, ah⟩ fs = .error e := by
  simp only [doGet, hauth, Bool.not_true, Bool.false_eq_true, if_false]
  simp [hp]

/-- C10 witness: `pos=abc` with a valid token raises the `ValueError` and
yields no response. -/
theorem C10_pos_conversion_unguarded_witness :
    checkAuth (some ACCESS_TOKEN) none = true ∧
    pyInt "abc" = .error "invalid literal for int() with base 10: abc" ∧
    doGet ⟨"/stream", some ACCESS_TOKEN, some "abc", none⟩ .absent
      = .error "invalid literal for int() with base 10: abc" :=
  ⟨rfl, rfl,
    C10_pos_conversion_unguarded (some ACCESS_TOKEN) none .absent "abc"
      "invalid literal for int() with base 10: abc" rfl rfl⟩

/-- Every payload the reading loop attempts to send is one of the stream's
lines, unchanged. -/
theorem forwardLines_payload_mem (fail : Nat → Bool) :
    ∀ (stream : List (List Nat)) (i : Nat) (d : List Nat),
      d ∈ (forwardLines fail i stream).map Prod.fst → d ∈ stream := by
  intro stream
  induction stream with
  | nil =>
    intro i d h
    simp [forwardLines] at h
  | cons l rest ih =>
    intro i d h
    by_cases hl : l.isEmpty
    · simp [forwardLines, hl] at h
    · rw [forwardLines, if_neg hl] at h
      rcases hfail : fail i with _ | _ <;>
        · simp only [sendDatagram, hfail] at h
          simp only [Bool.false_eq_true, if_false, if_true, List.map_cons,
            List.mem_cons] at h
          rcases h with h | h
          · exact h ▸ List.mem_cons_self l rest
          · exact List.mem_cons_of_mem l (ih (i + 1) d h)

/-- When no line is the EOF sentinel, the reading loop attempts every line
of the stream — whatever the send-failure pattern — and the attempted
payloads are exactly the lines, in order. -/
theorem forwardLines_payloads_all (fail : Nat → Bool) :
    ∀ (stream : List (List Nat)) (i : Nat), (∀ l ∈ stream, l ≠ []) →
      (forwardLines fail i stream).map Prod.fst = stream := by
  intro stream
  induction stream with
  | nil => intro i _; rfl
  | cons l rest ih =>
    intro i h
    have hl : l.isEmpty = false := by
      rcases l with _ | ⟨a, as⟩
      · exact absurd rfl (h [] (List.mem_cons_self _ _))
      · rfl
    rw [forwardLines, if_neg (by simp [hl])]
    have hrest := ih (i + 1) (fun x hx => h x (List.mem_cons_of_mem l hx))
    rcases hfail : fail i with _ | _ <;>
      simp [sendDatagram, hfail, hrest]

/-- C6 counterexample: with no send failing, the forwarder's first datagram
is the attach banner — which is not any log line of the stream — and a
4097-byte worker line is sent as a 4097-byte datagram, exceeding the
claimed 4096-byte bound. -/
theorem C6_counterexample :
    bannerBytes "2025-11-01" ∈ datagramPayloads noFail "2025-11-01" [bigLine] ∧
    bannerBytes "2025-11-01" ∉ [bigLine] ∧
    bigLine ∈ datagramPayloads noFail "2025-11-01" [bigLine] ∧
    4096 < bigLine.length := by
  have hpay : datagramPayloads noFail "2025-11-01" [bigLine]
      = [bannerBytes "2025-11-01", bigLine] := rfl
  have hban : (bannerBytes "2025-11-01").length = 43 := by decide
  have hbig : bigLine.length = 4097 := by
    unfold bigLine
    rw [List.length_cons, List.length_replicate]
  refine ⟨?_, ?_, ?_, ?_⟩
  · rw [hpay]; exact List.mem_cons_self _ _
  · intro hmem
    rcases List.mem_singleton.mp hmem with h
    have := congrArg List.length h
    rw [hban, hbig] at this
    exact absurd this (by decide)
  · rw [hpay]; exact List.mem_cons_of_mem _ (List.mem_cons_self _ _)
  · rw [hbig]; decide

/-- C6 amended: every datagram the Pipe Forwarder sends to the Collector's
address is either the fixed attach banner or exactly one log line's raw
bytes, unframed and unmodified; no size bound is enforced — a line's
datagram is exactly as long as the line. -/
theorem C6_datagram_per_line (fail : Nat → Bool) (ts : String)
    (stream : List (List Nat)) (d : List Nat)
    (h : d ∈ datagramPayloads fail ts stream) :
    d = bannerBytes ts ∨ d ∈ stream := by
  unfold datagramPayloads udpStreamHandler at h
  rcases hf : fail 0 with _ | _
  · simp only [sendDatagram, hf, Bool.false_eq_true, if_false,
      List.map_cons, List.mem_cons] at h
    rcases h with h | h
    · exact Or.inl h
    · exact Or.inr (forwardLines_payload_mem fail stream 1 d h)
  · simp [sendDatagram, hf] at h

/-- C6 witness: the amended claim at a concrete one-line stream. -/
theorem C6_datagram_per_line_witness :
    strBytes "hello" ∈ datagramPayloads noFail "tw" [strBytes "hello"] ∧
    (strBytes "hello" = bannerBytes "tw" ∨
      strBytes "hello" ∈ [strBytes "hello"]) :=
  ⟨by decide,
    C6_datagram_per_line noFail "tw" [strBytes "hello"] (strBytes "hello")
      (by decide)⟩

/-- C7: the forwarder never propagates a transport failure — whatever the
send-failure pattern, `udp_stream_handler` returns normally (`.ok`, never
an uncaught exception) — and when the banner send succeeds, a failed
per-line send is swallowed and the loop still attempts every line of the
stream, terminating at end-of-stream with a plain return that carries no
signal to the Supervisor. -/
theorem C7_send_failures_swallowed (fail : Nat → Bool) (ts : String)
    (stream : List (List Nat)) :
    (∃ outs, udpStreamHandler fail ts stream = .ok outs) ∧
    (fail 0 = false → (∀ l ∈ stream, l ≠ []) →
      ∃ outs, udpStreamHandler fail ts stream = .ok outs ∧
        outs.map Prod.fst = bannerBytes ts :: stream) := by
  constructor
  · unfold udpStreamHandler
    rcases hf : fail 0 with _ | _ <;> simp [sendDatagram, hf]
  · intro h0 hne
    refine ⟨(bannerBytes ts, true) :: forwardLines fail 1 stream, ?_, ?_⟩
    · unfold udpStreamHandler
      simp [sendDatagram, h0]
    · simp [forwardLines_payloads_all fail stream 1 hne]

/-- C7 witness: with every odd-numbered send failing (the first line's send
among them), the forwarder still returns normally and attempts both lines. -/
theorem C7_send_failures_swallowed_witness :
    failOdd 0 = false ∧
    (∀ l ∈ [strBytes "aa", strBytes "bb"], l ≠ []) ∧
    (∃ outs,
      udpStreamHandler failOdd "tw" [strBytes "aa", strBytes "bb"] = .ok outs ∧
      outs.map Prod.fst
        = bannerBytes "tw" :: [strBytes "aa", strBytes "bb"]) :=
  ⟨by decide, by decide,
    (C7_send_failures_swallowed failOdd "tw"
      [strBytes "aa", strBytes "bb"]).2 (by decide) (by decide)⟩

/-- C8: a spawn failure never terminates the supervising process — the
iteration logs the critical `FATAL KERNEL ERROR` message, does not exit,
and retries after exactly the same `RESTART_DELAY` used when a running
worker exits; any run of consecutive spawn failures keeps the loop going
(one trace entry per failure, none terminating). -/
theorem C8_spawn_failure_retry (msg : String) (msgs : List String) :
    (mainLoopIter (.spawnFail msg)).terminates = false ∧
    (mainLoopIter (.spawnFail msg)).delay = RESTART_DELAY ∧
    (mainLoopIter (.workerRuns false)).delay = RESTART_DELAY ∧
    ("FATAL KERNEL ERROR: " ++ msg) ∈ (mainLoopIter (.spawnFail msg)).logs ∧
    (superviseTrace (msgs.map SpawnOutcome.spawnFail)).length = msgs.length ∧
    ∀ r ∈ superviseTrace (msgs.map SpawnOutcome.spawnFail),
      r.terminates = false := by
  refine ⟨rfl, rfl, rfl, ?_, ?_, ?_⟩
  · exact List.mem_cons_self _ _
  · induction msgs with
    | nil => rfl
    | cons m ms ih => simp [superviseTrace, mainLoopIter, ih]
  · induction msgs with
    | nil => intro r hr; simp [superviseTrace] at hr
    | cons m ms ih =>
      intro r hr
      simp only [List.map_cons, superviseTrace, mainLoopIter] at hr
      rcases List.mem_cons.mp hr with h | h
      · rw [h]
      · exact ih r h

/-- C8 witness: the supervisor survives two concrete consecutive spawn
failures with the standard delay. -/
theorem C8_spawn_failure_retry_witness :
    (mainLoopIter (.spawnFail "No such file or directory")).terminates
        = false ∧
    (superviseTrace
        (["No such file or directory", "Permission denied"].map
          SpawnOutcome.spawnFail)).length = 2 ∧
    ("FATAL KERNEL ERROR: " ++ "No such file or directory")
      ∈ (mainLoopIter (.spawnFail "No such file or directory")).logs :=
  ⟨(C8_spawn_failure_retry "No such file or directory" []).1,
    (C8_spawn_failure_retry "x"
      ["No such file or directory", "Permission denied"]).2.2.2.2.1,
    (C8_spawn_failure_retry "No such file or directory" []).2.2.2.1⟩

/-- C9 counterexample: a worker that dies one second after a liveness poll
is only detected at the next poll, so with `restart_delay = 5` the next
spawn begins 9 seconds after the death — later than
`T + restart_delay + ε` even granting a slack of `ε = 3`. -/
theorem C9_counterexample :
    RESTART_DELAY = 5 ∧ nextSpawnTime 1 = 10 ∧
    ¬ nextSpawnTime 1 ≤ 1 + RESTART_DELAY + 3 := by
  decide

/-- C9 amended: if the worker dies at time `t`, the next spawn attempt
begins no earlier than `t` and no later than
`t + POLL_INTERVAL + RESTART_DELAY`: the death is observed at the next
liveness poll (up to `POLL_INTERVAL` after `t`) and the fixed
`RESTART_DELAY` sleep follows before the respawn. -/
theorem C9_restart_window (t : Nat) :
    t ≤ nextSpawnTime t ∧
    nextSpawnTime t ≤ t + POLL_INTERVAL + RESTART_DELAY := by
  unfold nextSpawnTime detectTime POLL_INTERVAL RESTART_DELAY
  omega
